import Mathlib

/-!
Shallow embedding of `src/Shared/DC/ZRDB/sqltest.py` (the `SQLTest`
directive of Products.ZSQLMethods) and verification of the frozen claims
about it.

Modelling conventions:

* Python scalar values reaching the directive are modelled by `Scal`:
  text strings, byte strings and integers.  A byte string is carried
  together with its decoded text (the model assumes byte inputs decode
  successfully; decoding failures are outside the model).  Python floats
  as *input values* are outside the model (IEEE semantics); the `float`
  *declared type* branch is modelled for the scalars above.
* A resolved value (`Val`) is a scalar or a flat list/tuple of scalars,
  matching the spec's data model ("a single scalar or an ordered
  sequence of scalars").
* The variable-lookup context `md` is modelled by a lookup function
  (`md[name]`, `None` = `KeyError`) together with the injected quoting
  function `md.getitem('sql_quote__', 0)`, assumed present and returning
  text.
* `parse_params` / `name_param` live in the external DocumentTemplate
  package (out of scope per the spec); `Args` is their output: the
  parsed argument mapping plus the `(name, expr)` pair `name_param`
  returns.  A bare flag such as `optional` receives the value `1` there.
* Python truthiness of argument values is `AVal.truthy`; `int(s)` on
  text is `pyInt?` (ASCII whitespace, sign, digits with single
  underscores between digits; non-ASCII digits are outside the model);
  `float(s)` validity is `pyFloatOk` (same digit runs, optional point
  and exponent, signed `inf`/`infinity`/`nan` case-insensitively).
* `str(float(n))` for an integer `n` is modelled as the exact decimal
  form `toString n ++ ".0"`, which matches Python for every `|n| ≤ 2^53`;
  larger magnitudes are outside the model.
* Exceptions become `Except`: `ParseErr` for parse-time `ParseError`,
  `PyErr` for render-time errors (`valueError` with the exact message
  text; `typeError` for the uncaught `TypeError` raised when `self.expr`
  is Python `None` and gets called).
-/

/-- Value of a parsed tag argument: a number (`1` for a bare flag) or a
string. -/
inductive AVal where
  | int (n : Int)
  | str (s : String)
deriving DecidableEq

/-- Python truthiness of an argument value. -/
def AVal.truthy : AVal → Bool
  | .int n => n ≠ 0
  | .str s => s ≠ ""

/-- Python truthiness of `'k' in args and args['k']` (and of
`self.optional` / `self.multiple`, whose class default is `None`). -/
def argTruthy : Option AVal → Bool
  | none => false
  | some a => a.truthy

/-- A scalar input value: a text string, a byte string (carried as its
decoded text), or an integer. -/
inductive Scal where
  | str (s : String)
  | bytes (s : String)
  | int (n : Int)
deriving DecidableEq

/-- A resolved input value: a scalar or a flat list/tuple of scalars. -/
inductive Val where
  | scal (x : Scal)
  | list (xs : List Scal)
  | tuple (xs : List Scal)
deriving DecidableEq

/-- The render-time variable context: mapping-style lookup (`none`
models `KeyError`) and the injected `sql_quote__` function. -/
structure Md where
  lookup : String → Option Val
  sql_quote : String → String

/-- `self.expr` after `__init__`: a plain name string (looked up in the
context), a callable (from the `expr` attribute; `Except.error ()`
models a `KeyError` escaping the call), or Python `None`. -/
inductive ExprV where
  | str (s : String)
  | fn (f : Md → Except Unit Val)
  | noneV

/-- The arguments reaching `__init__` after the external
`parse_params` / `name_param` calls: the `(name, expr)` pair plus the
remaining parsed argument mapping. -/
structure Args where
  name? : Option String
  expr? : Option (Md → Except Unit Val)
  type? : Option String
  column? : Option String
  optional? : Option AVal
  multiple? : Option AVal
  op? : Option String

/-- A parse-time `ParseError(msg, tag)`. -/
structure ParseErr where
  msg : String
  tag : String
deriving DecidableEq

/-- A render-time Python exception. -/
inductive PyErr where
  | valueError (msg : String)
  | typeError
deriving DecidableEq

/-- The `SQLTest` instance state produced by `__init__`. -/
structure SQLTest where
  encoding : Option String
  name? : Option String
  expr : ExprV
  args : Args
  type : String
  optional? : Option AVal
  multiple? : Option AVal
  column : String
  op : String

/-- The key set of `valid_types = {'int': 1, 'float': 1, 'string': 1, 'nb': 1}`. -/
def valid_types : List String := ["int", "float", "string", "nb"]

/-- `comparison_operators` table from the source. -/
def comparison_operators : List (String × String) :=
  [("eq", "="), ("ne", "<>"),
   ("lt", "<"), ("le", "<="), ("lte", "<="),
   ("gt", ">"), ("ge", ">="), ("gte", ">=")]

/-- `comparison_operators.get(op, op)`. -/
def cmpOpGet (o : String) : String :=
  match (comparison_operators.filter (fun p => p.1 = o)).head? with
  | some p => p.2
  | none => o

/-- Python `'%s' % name` for `self.__name__` (which may be `None`). -/
def pyFmtName : Option String → String
  | some n => n
  | none => "None"

/-- Source lines 79–83: `self.expr` is the expression's callable when
one was given, otherwise the name (Python `None` when both are absent). -/
def initExpr (a : Args) : ExprV :=
  match a.expr? with
  | some f => ExprV.fn f
  | none =>
    match a.name? with
    | some n => ExprV.str n
    | none => ExprV.noneV

/-- Source lines 105–111: the operator defaults to `=`, a symbolic token
is translated through `comparison_operators`, anything else passes
through verbatim. -/
def initOp (a : Args) : String :=
  match a.op? with
  | none => "="
  | some o => cmpOpGet o

/-- `SQLTest.__init__`, lines 73–111 of the source, taking the outputs
of the external `parse_params` / `name_param` as input. -/
def SQLTest.init (a : Args) (encoding : Option String) : Except ParseErr SQLTest :=
  match a.type? with
  | none => Except.error ⟨"the type attribute is required", "sqltest"⟩
  | some t =>
    if valid_types.contains t then
      match a.column? with
      | some c =>
        Except.ok ⟨encoding, a.name?, initExpr a, a, t, a.optional?, a.multiple?, c, initOp a⟩
      | none =>
        match a.name? with
        | none =>
          Except.error
            ⟨" the column attribute is required if an expression is used", "sqltest"⟩
        | some n =>
          Except.ok ⟨encoding, a.name?, initExpr a, a, t, a.optional?, a.multiple?, n, initOp a⟩
    else
      Except.error ⟨"invalid type, " ++ t, "sqltest"⟩

/-- ASCII whitespace stripped by Python `int()` / `float()` on strings. -/
def isPyWS (c : Char) : Bool :=
  c = ' ' || c = '\t' || c = '\n' || c = '\r' || c = '\x0b' || c = '\x0c'

/-- ASCII decimal digit test. -/
def isDigitC (c : Char) : Bool := '0' ≤ c && c ≤ '9'

/-- Numeric value of an ASCII digit. -/
def digitVal (c : Char) : Nat := c.toNat - '0'.toNat

/-- Remaining digits of an integer literal: `(('_')? digit)*`, single
underscores allowed between digits only. -/
def digitsTail (acc : Nat) : List Char → Option Nat
  | [] => some acc
  | '_' :: c :: cs =>
    if isDigitC c then digitsTail (acc * 10 + digitVal c) cs else none
  | c :: cs =>
    if isDigitC c then digitsTail (acc * 10 + digitVal c) cs else none

/-- An unsigned integer literal: `digit (('_')? digit)*`. -/
def natLit? : List Char → Option Nat
  | [] => none
  | c :: cs => if isDigitC c then digitsTail (digitVal c) cs else none

/-- A signed integer literal. -/
def intCore? : List Char → Option Int
  | '+' :: cs => (natLit? cs).map (fun n => (n : Int))
  | '-' :: cs => (natLit? cs).map (fun n => -(n : Int))
  | cs => (natLit? cs).map (fun n => (n : Int))

/-- Strip leading and trailing Python whitespace. -/
def stripPyWS (l : List Char) : List Char :=
  ((l.dropWhile isPyWS).reverse.dropWhile isPyWS).reverse

/-- Python `int(s)` on a text string: `none` models a `ValueError`. -/
def pyInt? (s : String) : Option Int :=
  intCore? (stripPyWS s.data)

/-- Consume a run of digits with embedded single underscores, returning
the unconsumed remainder. -/
def digTail : List Char → List Char
  | '_' :: c :: cs => if isDigitC c then digTail cs else '_' :: c :: cs
  | c :: cs => if isDigitC c then digTail cs else c :: cs
  | [] => []

/-- Consume `digit (('_')? digit)*`; `none` when no leading digit. -/
def digRun? : List Char → Option (List Char)
  | c :: cs => if isDigitC c then some (digTail cs) else none
  | [] => none

/-- Case-insensitive literal match, returning the remainder. -/
def matchCI : List Char → List Char → Option (List Char)
  | [], rest => some rest
  | _ :: _, [] => none
  | p :: ps, c :: cs => if c.toLower = p then matchCI ps cs else none

/-- The special float literals `infinity`, `inf`, `nan` (after the sign). -/
def floatSpecial? (l : List Char) : Option (List Char) :=
  match matchCI ['i', 'n', 'f', 'i', 'n', 'i', 't', 'y'] l with
  | some rest => some rest
  | none =>
    match matchCI ['i', 'n', 'f'] l with
    | some rest => some rest
    | none => matchCI ['n', 'a', 'n'] l

/-- The mantissa of a float literal: `digits [. digits?] | . digits`. -/
def floatMantissa? (l : List Char) : Option (List Char) :=
  match digRun? l with
  | some rest =>
    match rest with
    | '.' :: cs =>
      match digRun? cs with
      | some r2 => some r2
      | none => some cs
    | _ => some rest
  | none =>
    match l with
    | '.' :: cs => digRun? cs
    | _ => none

/-- An optional exponent `[eE] [+-]? digits`. -/
def floatExp? : List Char → Option (List Char)
  | [] => some []
  | c :: cs =>
    if c = 'e' || c = 'E' then
      match cs with
      | '+' :: cs2 => digRun? cs2
      | '-' :: cs2 => digRun? cs2
      | _ => digRun? cs
    else some (c :: cs)

/-- Validity of the body of a float literal (sign already consumed). -/
def floatBodyOk (l : List Char) : Bool :=
  match floatSpecial? l with
  | some rest => rest = ([] : List Char)
  | none =>
    match floatMantissa? l with
    | some rest =>
      match floatExp? rest with
      | some r2 => r2 = ([] : List Char)
      | none => false
    | none => false

/-- Python `float(s)` succeeding on a text string. -/
def pyFloatOk (s : String) : Bool :=
  let l := stripPyWS s.data
  match l with
  | '+' :: cs => floatBodyOk cs
  | '-' :: cs => floatBodyOk cs
  | cs => floatBodyOk cs

/-- Python `not v` for a textual value: the empty string or empty byte
string (an integer is never textual). -/
def Scal.emptyTextual : Scal → Bool
  | .str s => s = ""
  | .bytes s => s = ""
  | .int _ => false

/-- The slice test `v[-1:] == 'L'` followed by `v = v[:-1]`: strip one
trailing `L`. -/
def stripLMark (l : List Char) : List Char :=
  match l.getLast? with
  | some 'L' => l.dropLast
  | _ => l

/-- The textual form a string-typed element takes before quoting:
`str(v)` for non-text, byte strings decoded. -/
def Scal.text : Scal → String
  | .str s => s
  | .bytes s => s
  | .int n => toString n

/-- One iteration of the `for v in v` loop (source lines 137–179):
`ok none` models `continue` (the element is dropped), `ok (some s)`
models `vs.append(s)`. -/
def processElem (st : SQLTest) (md : Md) (v : Scal) : Except PyErr (Option String) :=
  if v.emptyTextual = true ∧ st.type ≠ "string" then Except.ok none
  else if st.type = "int" then
    match v with
    | .str s0 | .bytes s0 =>
      match pyInt? (String.mk (stripLMark s0.data)) with
      | some _ => Except.ok (some (String.mk (stripLMark s0.data)))
      | none =>
        Except.error (.valueError
          ("Invalid integer value for <em>" ++ pyFmtName st.name? ++ "</em>"))
    | .int n => Except.ok (some (toString n))
  else if st.type = "float" then
    if v.emptyTextual = true then Except.ok none
    else
      match v with
      | .str s0 | .bytes s0 =>
        if pyFloatOk s0 then Except.ok (some s0)
        else
          Except.error (.valueError
            ("Invalid floating-point value for <em>" ++ pyFmtName st.name? ++ "</em>"))
      | .int n => Except.ok (some (toString n ++ ".0"))
  else
    Except.ok (some (md.sql_quote v.text))

/-- The whole element loop, producing the list `vs`. -/
def processElems (st : SQLTest) (md : Md) : List Scal → Except PyErr (List String)
  | [] => Except.ok []
  | v :: rest =>
    match processElem st md v with
    | .error e => Except.error e
    | .ok none => processElems st md rest
    | .ok (some s) =>
      match processElems st md rest with
      | .error e => Except.error e
      | .ok vs => Except.ok (s :: vs)

/-- Source lines 181–202: the empty-result policy and the final
composition of the fragment. -/
def composeFragment (st : SQLTest) (vs : List String) : Except PyErr String :=
  if vs = [] ∧ st.type = "nb" then
    if argTruthy st.args.optional? then Except.ok ""
    else
      Except.error (.valueError
        ("Invalid empty string value for <em>" ++ pyFmtName st.name? ++ "</em>"))
  else if vs = [] then
    if argTruthy st.optional? then Except.ok ""
    else
      Except.error (.valueError
        ("No input was provided for <em>" ++ pyFmtName st.name? ++ "</em>"))
  else if 1 < vs.length then
    if st.op = "<>" then
      Except.ok (st.column ++ " not in (" ++ String.intercalate ", " vs ++ ")")
    else
      Except.ok (st.column ++ " in (" ++ String.intercalate ", " vs ++ ")")
  else
    Except.ok (st.column ++ " " ++ st.op ++ " " ++ vs.headD "")

/-- The loop plus composition: rendering of an already-normalized
element sequence. -/
def renderSeq (st : SQLTest) (md : Md) (xs : List Scal) : Except PyErr String :=
  match processElems st md xs with
  | .error e => Except.error e
  | .ok vs => composeFragment st vs

/-- Outcome of the resolution step (source lines 118–123). -/
inductive Resolved where
  | ok (v : Val)
  | keyErr
  | typeErr

/-- Resolve the input value: look the name up or call the expression;
`keyErr` models a `KeyError`, `typeErr` the `TypeError` from calling
Python `None`. -/
def resolveInput (st : SQLTest) (md : Md) : Resolved :=
  match st.expr with
  | .str s =>
    match md.lookup s with
    | some v => Resolved.ok v
    | none => Resolved.keyErr
  | .fn f =>
    match f md with
    | .ok v => Resolved.ok v
    | .error _ => Resolved.keyErr
  | .noneV => Resolved.typeErr

/-- `SQLTest.render` (source lines 113–202). -/
def render (st : SQLTest) (md : Md) : Except PyErr String :=
  match resolveInput st md with
  | .typeErr => Except.error PyErr.typeError
  | .keyErr =>
    if argTruthy st.args.optional? then Except.ok ""
    else
      Except.error (.valueError
        ("Missing input variable, <em>" ++ pyFmtName st.name? ++ "</em>"))
  | .ok v =>
    match v with
    | .list xs | .tuple xs =>
      if 1 < xs.length ∧ argTruthy st.multiple? = false then
        Except.error (.valueError
          ("multiple values are not allowed for <em>" ++ pyFmtName st.name? ++ "</em>"))
      else renderSeq st md xs
    | .scal x => renderSeq st md [x]

/-! ### Concrete instances used by the claim witnesses and counterexamples -/

def c1a : Args :=
  ⟨some "ids", none, some "int", none, none, some (AVal.int 1), some "ne"⟩

def c1st : SQLTest :=
  ⟨none, some "ids", ExprV.str "ids", c1a, "int", none, some (AVal.int 1), "ids", "<>"⟩

def c1md : Md :=
  ⟨fun s => if s = "ids" then some (Val.list [Scal.int 1, Scal.int 2, Scal.int 3]) else none,
   fun s => s⟩

def c2aNone : Args := ⟨some "x", none, none, none, none, none, none⟩

def c2aBad : Args := ⟨some "x", none, some "text", none, none, none, none⟩

def c3a : Args :=
  ⟨some "home_town", none, some "nb", none, some (AVal.int 1), none, none⟩

def c3st : SQLTest :=
  ⟨none, some "home_town", ExprV.str "home_town", c3a, "nb", some (AVal.int 1), none,
   "home_town", "="⟩

def c3md : Md := ⟨fun _ => none, fun s => s⟩

def c4a : Args := ⟨some "x", none, some "int", none, none, none, none⟩

def c4st : SQLTest := ⟨none, some "x", ExprV.str "x", c4a, "int", none, none, "x", "="⟩

def c4md : Md :=
  ⟨fun s => if s = "x" then some (Val.list [Scal.int 1, Scal.int 2]) else none, fun s => s⟩

def c5a : Args := ⟨some "nick_name", none, some "nb", none, none, none, none⟩

def c5st : SQLTest :=
  ⟨none, some "nick_name", ExprV.str "nick_name", c5a, "nb", none, none, "nick_name", "="⟩

def c5md : Md :=
  ⟨fun s => if s = "nick_name" then some (Val.scal (Scal.str "")) else none, fun s => s⟩

def c6a : Args := ⟨some "y", none, some "int", none, none, none, none⟩

def c6st : SQLTest := ⟨none, some "y", ExprV.str "y", c6a, "int", none, none, "y", "="⟩

def c6md : Md :=
  ⟨fun s => if s = "y" then some (Val.list [Scal.int 1, Scal.int 2]) else none, fun s => s⟩

def c6mdEmpty : Md := ⟨fun _ => none, fun s => s⟩

def c7a : Args :=
  ⟨some "city", none, some "string", none, some (AVal.int 1), none, none⟩

def c7st : SQLTest :=
  ⟨none, some "city", ExprV.str "city", c7a, "string", some (AVal.int 1), none, "city", "="⟩

def c7md : Md :=
  ⟨fun s => if s = "city" then some (Val.scal (Scal.str "")) else none,
   fun s => "'" ++ s ++ "'"⟩

def c8a : Args := ⟨some "age", none, some "int", none, none, none, none⟩

def c8st : SQLTest := ⟨none, some "age", ExprV.str "age", c8a, "int", none, none, "age", "="⟩

def c8md : Md :=
  ⟨fun s => if s = "age" then some (Val.scal (Scal.int 30)) else none, fun s => s⟩

def c9a : Args := ⟨some "n", none, some "int", none, none, none, none⟩

def c9st : SQLTest := ⟨none, some "n", ExprV.str "n", c9a, "int", none, none, "n", "="⟩

def c9md1 : Md :=
  ⟨fun s => if s = "n" then some (Val.list [Scal.int 7]) else none, fun s => s⟩

def c9md2 : Md :=
  ⟨fun s => if s = "n" then some (Val.scal (Scal.int 7)) else none, fun s => s⟩

def c10a : Args := ⟨some "x", none, some "int", none, none, none, none⟩

def c10aM : Args := ⟨some "x", none, some "int", none, none, some (AVal.int 1), none⟩

def c10st : SQLTest := ⟨none, some "x", ExprV.str "x", c10a, "int", none, none, "x", "="⟩

def c10stM : SQLTest :=
  ⟨none, some "x", ExprV.str "x", c10aM, "int", none, some (AVal.int 1), "x", "="⟩

def c10md : Md :=
  ⟨fun s => if s = "x" then some (Val.list [Scal.str "", Scal.str "1"]) else none, fun s => s⟩

/-! ### Helper lemmas -/

theorem data_app (p q : String) : (p ++ q).data = p.data ++ q.data := by
  cases p; cases q; rfl

theorem mk_data (s : String) : String.mk s.data = s := by
  cases s; rfl

theorem head_append (p q : String) (c : Char) (h : p.data.head? = some c) :
    (p ++ q).data.head? = some c := by
  rw [data_app]
  cases hp : p.data with
  | nil => rw [hp] at h; exact absurd h (by simp)
  | cons a l =>
    rw [hp] at h
    simp only [List.head?] at h
    rw [Option.some.injEq] at h
    subst h
    simp

theorem msg_ne (p a q b : String) (c d : Char)
    (hp : p.data.head? = some c) (hq : q.data.head? = some d) (hcd : c ≠ d) :
    p ++ a ≠ q ++ b := by
  intro he
  have h1 := head_append p a c hp
  have h2 := head_append q b d hq
  rw [he, h2] at h1
  exact hcd (Option.some.inj h1).symm

theorem init_fields (a : Args) (enc : Option String) (st : SQLTest)
    (h : SQLTest.init a enc = Except.ok st) :
    st.args = a ∧ st.optional? = a.optional? ∧ st.multiple? = a.multiple?
      ∧ st.name? = a.name? := by
  unfold SQLTest.init at h
  cases ht : a.type? with
  | none => rw [ht] at h; injection h
  | some t =>
    rw [ht] at h
    dsimp only at h
    by_cases hv : valid_types.contains t = true
    · rw [if_pos hv] at h
      cases hc : a.column? with
      | some c =>
        rw [hc] at h
        have h2 := Except.ok.inj h
        subst h2
        exact ⟨rfl, rfl, rfl, rfl⟩
      | none =>
        rw [hc] at h
        cases hn : a.name? with
        | none => rw [hn] at h; injection h
        | some n =>
          rw [hn] at h
          have h2 := Except.ok.inj h
          subst h2
          exact ⟨rfl, rfl, rfl, rfl⟩
    · rw [if_neg hv] at h; injection h

theorem processElem_congr (st : SQLTest) (md1 md2 : Md) (v : Scal)
    (hq : md1.sql_quote = md2.sql_quote) :
    processElem st md1 v = processElem st md2 v := by
  unfold processElem; rw [hq]

theorem processElems_congr (st : SQLTest) (md1 md2 : Md) (xs : List Scal)
    (hq : md1.sql_quote = md2.sql_quote) :
    processElems st md1 xs = processElems st md2 xs := by
  induction xs with
  | nil => rfl
  | cons v rest ih =>
    unfold processElems
    rw [processElem_congr st md1 md2 v hq, ih]

theorem renderSeq_congr (st : SQLTest) (md1 md2 : Md) (xs : List Scal)
    (hq : md1.sql_quote = md2.sql_quote) :
    renderSeq st md1 xs = renderSeq st md2 xs := by
  unfold renderSeq
  rw [processElems_congr st md1 md2 xs hq]

theorem processElem_error_head (st : SQLTest) (md : Md) (v : Scal) (e : PyErr)
    (h : processElem st md v = Except.error e) :
    ∃ m, e = PyErr.valueError m ∧ m.data.head? = some 'I' := by
  unfold processElem at h
  repeat' split at h
  all_goals try injection h
  all_goals (rename_i aeq; exact ⟨_, aeq.symm, head_append _ _ _ (head_append _ _ _ rfl)⟩)

theorem processElems_error_head (st : SQLTest) (md : Md) (xs : List Scal) (e : PyErr)
    (h : processElems st md xs = Except.error e) :
    ∃ m, e = PyErr.valueError m ∧ m.data.head? = some 'I' := by
  induction xs with
  | nil => exact absurd h (by simp [processElems])
  | cons v rest ih =>
    unfold processElems at h
    cases hv : processElem st md v with
    | error e2 =>
      rw [hv] at h
      injection h with h2
      exact h2 ▸ processElem_error_head st md v e2 hv
    | ok o =>
      rw [hv] at h
      cases o with
      | none => exact ih h
      | some s =>
        cases hr : processElems st md rest with
        | error e3 =>
          rw [hr] at h
          injection h with h2
          exact ih (h2 ▸ hr)
        | ok vs => rw [hr] at h; injection h

theorem composeFragment_error_head (st : SQLTest) (vs : List String) (e : PyErr)
    (h : composeFragment st vs = Except.error e) :
    ∃ m, e = PyErr.valueError m
      ∧ (m.data.head? = some 'I' ∨ m.data.head? = some 'N') := by
  unfold composeFragment at h
  repeat' split at h
  all_goals try exact Except.noConfusion h
  all_goals injection h with h2
  · exact ⟨_, h2.symm, Or.inl (head_append _ _ _ (head_append _ _ _ rfl))⟩
  · exact ⟨_, h2.symm, Or.inr (head_append _ _ _ (head_append _ _ _ rfl))⟩

theorem renderSeq_ok_eq (st : SQLTest) (md : Md) (xs : List Scal) (vs : List String)
    (hp : processElems st md xs = Except.ok vs) :
    renderSeq st md xs = composeFragment st vs := by
  unfold renderSeq
  rw [hp]

theorem renderSeq_error_eq (st : SQLTest) (md : Md) (xs : List Scal) (e : PyErr)
    (hp : processElems st md xs = Except.error e) :
    renderSeq st md xs = Except.error e := by
  unfold renderSeq
  rw [hp]

theorem renderSeq_ne_multiple_msg (st : SQLTest) (md : Md) (xs : List Scal) (s : String) :
    renderSeq st md xs
      ≠ Except.error (PyErr.valueError
          ("multiple values are not allowed for <em>" ++ s ++ "</em>")) := by
  intro h
  have hmult : ("multiple values are not allowed for <em>" ++ s ++ "</em>").data.head?
      = some 'm' :=
    head_append ("multiple values are not allowed for <em>" ++ s) "</em>" 'm'
      (head_append _ _ _ rfl)
  cases hp : processElems st md xs with
  | error e =>
    rw [renderSeq_error_eq st md xs e hp] at h
    injection h with h2
    obtain ⟨m, hm, hh⟩ := processElems_error_head st md xs e hp
    rw [h2] at hm
    rw [← PyErr.valueError.inj hm] at hh
    rw [hmult] at hh
    exact absurd (Option.some.inj hh) (by decide)
  | ok vs =>
    rw [renderSeq_ok_eq st md xs vs hp] at h
    obtain ⟨m, hm, hh⟩ := composeFragment_error_head st vs _ h
    rw [← PyErr.valueError.inj hm] at hh
    rw [hmult] at hh
    rcases hh with hh | hh
    · exact absurd (Option.some.inj hh) (by decide)
    · exact absurd (Option.some.inj hh) (by decide)

theorem processElems_all_empty (st : SQLTest) (md : Md) (xs : List Scal)
    (hty : st.type ≠ "string") (hall : ∀ x ∈ xs, x.emptyTextual = true) :
    processElems st md xs = Except.ok [] := by
  induction xs with
  | nil => rfl
  | cons v rest ih =>
    have hv : v.emptyTextual = true := hall v (by simp)
    have hskip : processElem st md v = Except.ok none := by
      unfold processElem
      rw [if_pos ⟨hv, hty⟩]
    unfold processElems
    rw [hskip]
    exact ih (fun x hx => hall x (by simp [hx]))

theorem composeFragment_single (st : SQLTest) (s : String) :
    composeFragment st [s] = Except.ok (st.column ++ " " ++ st.op ++ " " ++ s) := by
  unfold composeFragment
  rw [if_neg (fun hc => List.cons_ne_nil s [] hc.1), if_neg (List.cons_ne_nil s []),
    if_neg (by simp : ¬(1 < List.length [s]))]
  rfl

theorem composeFragment_multi (st : SQLTest) (vs : List String) (hlen : 1 < vs.length) :
    composeFragment st vs =
      (if st.op = "<>" then
        Except.ok (st.column ++ " not in (" ++ String.intercalate ", " vs ++ ")")
      else
        Except.ok (st.column ++ " in (" ++ String.intercalate ", " vs ++ ")")) := by
  have hne : vs ≠ [] := by
    intro hc
    rw [hc] at hlen
    exact absurd hlen (by decide)
  unfold composeFragment
  rw [if_neg (fun hc => hne hc.1), if_neg hne, if_pos hlen]

theorem render_keyErr_eq (st : SQLTest) (md : Md)
    (hres : resolveInput st md = Resolved.keyErr) :
    render st md =
      (if argTruthy st.args.optional? then Except.ok ""
       else Except.error (PyErr.valueError
         ("Missing input variable, <em>" ++ pyFmtName st.name? ++ "</em>"))) := by
  unfold render
  rw [hres]

theorem render_list_eq (st : SQLTest) (md : Md) (xs : List Scal)
    (hres : resolveInput st md = Resolved.ok (Val.list xs)) :
    render st md =
      (if 1 < xs.length ∧ argTruthy st.multiple? = false then
        Except.error (PyErr.valueError
          ("multiple values are not allowed for <em>" ++ pyFmtName st.name? ++ "</em>"))
      else renderSeq st md xs) := by
  unfold render
  rw [hres]

theorem render_tuple_eq (st : SQLTest) (md : Md) (xs : List Scal)
    (hres : resolveInput st md = Resolved.ok (Val.tuple xs)) :
    render st md =
      (if 1 < xs.length ∧ argTruthy st.multiple? = false then
        Except.error (PyErr.valueError
          ("multiple values are not allowed for <em>" ++ pyFmtName st.name? ++ "</em>"))
      else renderSeq st md xs) := by
  unfold render
  rw [hres]

theorem render_scal_eq (st : SQLTest) (md : Md) (x : Scal)
    (hres : resolveInput st md = Resolved.ok (Val.scal x)) :
    render st md = renderSeq st md [x] := by
  unfold render
  rw [hres]

theorem renderSeq_single_of_some (st : SQLTest) (md : Md) (x : Scal) (s : String)
    (h : processElem st md x = Except.ok (some s)) :
    renderSeq st md [x] = Except.ok (st.column ++ " " ++ st.op ++ " " ++ s) := by
  have hp : processElems st md [x] = Except.ok [s] := by
    unfold processElems
    rw [h]
    rfl
  rw [renderSeq_ok_eq st md [x] [s] hp]
  exact composeFragment_single st s

theorem renderSeq_single_of_error (st : SQLTest) (md : Md) (x : Scal) (e : PyErr)
    (h : processElem st md x = Except.error e) :
    renderSeq st md [x] = Except.error e := by
  have hp : processElems st md [x] = Except.error e := by
    unfold processElems
    rw [h]
  exact renderSeq_error_eq st md [x] e hp

theorem stripLMark_id (l : List Char) (h : l.getLast? ≠ some 'L') : stripLMark l = l := by
  unfold stripLMark
  split
  · rename_i heq
    exact absurd heq h
  · rfl

theorem stripLMark_concat (l : List Char) : stripLMark (l ++ ['L']) = l := by
  unfold stripLMark
  rw [List.getLast?_concat]
  exact List.dropLast_concat

theorem pyInt_ne_empty (s : String) (z : Int) (hp : pyInt? s = some z) : s ≠ "" := by
  intro hs
  rw [hs] at hp
  exact Option.noConfusion hp

theorem processElem_int_intval (st : SQLTest) (md : Md) (hty : st.type = "int") (n : Int) :
    processElem st md (Scal.int n) = Except.ok (some (toString n)) := by
  unfold processElem
  rw [if_neg (fun hc => Bool.noConfusion hc.1), if_pos hty]

theorem processElem_int_str (st : SQLTest) (md : Md) (hty : st.type = "int")
    (s0 : String) (hne : s0 ≠ "") :
    processElem st md (Scal.str s0) =
      (match pyInt? (String.mk (stripLMark s0.data)) with
       | some _ => Except.ok (some (String.mk (stripLMark s0.data)))
       | none => Except.error (PyErr.valueError
           ("Invalid integer value for <em>" ++ pyFmtName st.name? ++ "</em>"))) := by
  unfold processElem
  rw [if_neg (fun hc => hne (by simpa [Scal.emptyTextual] using hc.1)), if_pos hty]

/-! ### Claim theorems -/

/-- C1: in every render whose element sequence is `xs` and whose
surviving values are `vs`, more than one survivor is joined with `", "`
and composed as `<column> not in (<joined>)` exactly when the operator
is `<>` and as `<column> in (<joined>)` for every other operator, while
a single survivor always composes as `<column> <operator> <value>`. -/
theorem c1_compose_forms (st : SQLTest) (md : Md) (xs : List Scal) (vs : List String)
    (hr : render st md = renderSeq st md xs)
    (hp : processElems st md xs = Except.ok vs) :
    (1 < vs.length →
      render st md = (if st.op = "<>"
        then Except.ok (st.column ++ " not in (" ++ String.intercalate ", " vs ++ ")")
        else Except.ok (st.column ++ " in (" ++ String.intercalate ", " vs ++ ")")))
    ∧ (∀ v0, vs = [v0] →
      render st md = Except.ok (st.column ++ " " ++ st.op ++ " " ++ v0)) := by
  constructor
  · intro hlen
    rw [hr, renderSeq_ok_eq st md xs vs hp]
    exact composeFragment_multi st vs hlen
  · intro v0 hv0
    rw [hr, renderSeq_ok_eq st md xs vs hp, hv0]
    exact composeFragment_single st v0




/-- Witness for C1: `ids`, operator `ne`/`<>`, values `[1, 2, 3]`. -/
theorem c1_compose_forms_witness :
    render c1st c1md = Except.ok "ids not in (1, 2, 3)" := by
  rw [(c1_compose_forms c1st c1md [Scal.int 1, Scal.int 2, Scal.int 3]
    ["1", "2", "3"] rfl rfl).1 (by decide)]
  rfl

/-- C2: construction fails with a parse-time configuration error
whenever `type` is absent, and whenever the supplied `type` is not one
of the four valid types (no `SQLTest` instance exists, so nothing is
deferred to render time). -/
theorem c2_type_required (a : Args) (enc : Option String) :
    (a.type? = none →
      SQLTest.init a enc = Except.error ⟨"the type attribute is required", "sqltest"⟩)
    ∧ (∀ t, a.type? = some t → valid_types.contains t = false →
      SQLTest.init a enc = Except.error ⟨"invalid type, " ++ t, "sqltest"⟩) := by
  constructor
  · intro h
    unfold SQLTest.init
    rw [h]
  · intro t ht hv
    unfold SQLTest.init
    rw [ht]
    dsimp only
    rw [if_neg (show ¬(valid_types.contains t = true) from
      fun hc => Bool.noConfusion (hv ▸ hc))]



/-- Witness for C2: a missing `type` and the invalid type `text`. -/
theorem c2_type_required_witness :
    SQLTest.init c2aNone none
      = Except.error ⟨"the type attribute is required", "sqltest"⟩
    ∧ SQLTest.init c2aBad none
      = Except.error ⟨"invalid type, " ++ "text", "sqltest"⟩ :=
  ⟨(c2_type_required c2aNone none).1 rfl,
   (c2_type_required c2aBad none).2 "text" rfl rfl⟩

/-- C3: for every declared type, when resolution signals key-not-found
the render returns `""` when `optional` is set (truthy) and otherwise
fails with the missing-input error naming the variable. -/
theorem c3_missing_input (st : SQLTest) (md : Md)
    (hres : resolveInput st md = Resolved.keyErr) :
    render st md =
      (if argTruthy st.args.optional? then Except.ok ""
       else Except.error (PyErr.valueError
         ("Missing input variable, <em>" ++ pyFmtName st.name? ++ "</em>"))) := by
  unfold render
  rw [hres]




/-- Witness for C3: optional `home_town` missing from the context. -/
theorem c3_missing_input_witness : render c3st c3md = Except.ok "" := by
  rw [c3_missing_input c3st c3md rfl]
  rfl

/-- C4: with `multiple` unset, a resolved list or tuple of more than one
element fails with the multiple-values error; a scalar is wrapped into a
one-element sequence and the multiple-values error can never occur. -/
theorem c4_multiplicity (st : SQLTest) (md : Md) (hm : st.multiple? = none) :
    (∀ xs, (resolveInput st md = Resolved.ok (Val.list xs)
        ∨ resolveInput st md = Resolved.ok (Val.tuple xs)) →
      1 < xs.length →
      render st md = Except.error (PyErr.valueError
        ("multiple values are not allowed for <em>" ++ pyFmtName st.name? ++ "</em>")))
    ∧ (∀ x, resolveInput st md = Resolved.ok (Val.scal x) →
      render st md = renderSeq st md [x]
      ∧ ∀ s, render st md ≠ Except.error (PyErr.valueError
          ("multiple values are not allowed for <em>" ++ s ++ "</em>"))) := by
  constructor
  · rintro xs (hres | hres) hlen
    · rw [render_list_eq st md xs hres, if_pos ⟨hlen, by rw [hm]; rfl⟩]
    · rw [render_tuple_eq st md xs hres, if_pos ⟨hlen, by rw [hm]; rfl⟩]
  · intro x hres
    have heq : render st md = renderSeq st md [x] := render_scal_eq st md x hres
    refine ⟨heq, fun s => ?_⟩
    rw [heq]
    exact renderSeq_ne_multiple_msg st md [x] s




/-- Witness for C4: `x = [1, 2]` with `multiple` unset. -/
theorem c4_multiplicity_witness :
    render c4st c4md = Except.error (PyErr.valueError
      ("multiple values are not allowed for <em>" ++ pyFmtName c4st.name? ++ "</em>")) :=
  (c4_multiplicity c4st c4md rfl).1 [Scal.int 1, Scal.int 2] (Or.inl rfl) (by decide)

/-- C5: when the declared type is not `string` and every resolved
element is an empty textual value, nothing survives filtering; the
render then returns `""` when `optional` is truthy, and otherwise fails
with the empty-string-value error for type `nb` and with the
no-input-provided error for every other type. -/
theorem c5_empty_filtered_policy (st : SQLTest) (md : Md) (xs : List Scal)
    (hty : st.type ≠ "string")
    (hwf : st.optional? = st.args.optional?)
    (hall : ∀ x ∈ xs, x.emptyTextual = true)
    (hr : render st md = renderSeq st md xs) :
    render st md =
      (if argTruthy st.args.optional? then Except.ok ""
       else if st.type = "nb" then
         Except.error (PyErr.valueError
           ("Invalid empty string value for <em>" ++ pyFmtName st.name? ++ "</em>"))
       else
         Except.error (PyErr.valueError
           ("No input was provided for <em>" ++ pyFmtName st.name? ++ "</em>"))) := by
  rw [hr, renderSeq_ok_eq st md xs [] (processElems_all_empty st md xs hty hall)]
  unfold composeFragment
  by_cases hnb : st.type = "nb"
  · rw [if_pos ⟨rfl, hnb⟩, if_pos hnb]
  · rw [if_neg (fun hc => hnb hc.2), if_pos rfl, if_neg hnb, hwf]




/-- Witness for C5: non-optional `nb` with the empty string as value. -/
theorem c5_empty_filtered_policy_witness :
    render c5st c5md = Except.error (PyErr.valueError
      "Invalid empty string value for <em>nick_name</em>") := by
  rw [c5_empty_filtered_policy c5st c5md [Scal.str ""] (by decide) rfl (by decide) rfl]
  rfl

/-- C6 counterexample: with both `multiple` and `optional` omitted from
the tag arguments, the directive built by `__init__` rejects a
two-element list with the multiple-values error and fails on a missing
input with the missing-input error — the defaults are restrictive, not
permissive. -/
theorem c6_counterexample :
    SQLTest.init c6a none = Except.ok c6st
    ∧ render c6st c6md = Except.error (PyErr.valueError
        "multiple values are not allowed for <em>y</em>")
    ∧ render c6st c6mdEmpty = Except.error (PyErr.valueError
        "Missing input variable, <em>y</em>") :=
  ⟨rfl, rfl, rfl⟩

/-- C6 amended: omitting `multiple` leaves `self.multiple` at its class
default `None` (falsy), so multi-valued input is rejected; omitting
`optional` likewise leaves `self.optional` as `None`, so a missing input
fails instead of rendering empty — both flags default to the restrictive
behaviour unless explicitly set. -/
theorem c6_defaults_restrictive (a : Args) (enc : Option String) (st : SQLTest)
    (hinit : SQLTest.init a enc = Except.ok st) :
    (a.multiple? = none → st.multiple? = none
      ∧ ∀ md xs, resolveInput st md = Resolved.ok (Val.list xs) → 1 < xs.length →
        render st md = Except.error (PyErr.valueError
          ("multiple values are not allowed for <em>" ++ pyFmtName st.name? ++ "</em>")))
    ∧ (a.optional? = none → st.optional? = none
      ∧ ∀ md, resolveInput st md = Resolved.keyErr →
        render st md = Except.error (PyErr.valueError
          ("Missing input variable, <em>" ++ pyFmtName st.name? ++ "</em>"))) := by
  obtain ⟨hargs, hopt, hmul, hname⟩ := init_fields a enc st hinit
  constructor
  · intro hm
    have hm2 : st.multiple? = none := by rw [hmul, hm]
    refine ⟨hm2, fun md xs hres hlen => ?_⟩
    rw [render_list_eq st md xs hres, if_pos ⟨hlen, by rw [hm2]; rfl⟩]
  · intro ho
    have ho2 : st.args.optional? = none := by rw [hargs, ho]
    refine ⟨by rw [hopt, ho], fun md hres => ?_⟩
    rw [render_keyErr_eq st md hres, ho2]
    rfl

/-- Witness for the amended C6 at the concrete directive `y`. -/
theorem c6_defaults_restrictive_witness :
    render c6st c6md = Except.error (PyErr.valueError
      ("multiple values are not allowed for <em>" ++ pyFmtName c6st.name? ++ "</em>")) :=
  ((c6_defaults_restrictive c6a none c6st rfl).1 rfl).2 c6md
    [Scal.int 1, Scal.int 2] rfl (by decide)

/-- C7 counterexample: the concrete scenario of the claim — type
`string`, `optional` set, name `city`, resolved value the empty string —
renders `"city = ''"` (with a standard quoting function), not the
claimed empty string: the empty-value filter excludes type `string`. -/
theorem c7_counterexample :
    SQLTest.init c7a none = Except.ok c7st
    ∧ render c7st c7md = Except.ok "city = ''"
    ∧ ("city = ''" : String) ≠ "" :=
  ⟨rfl, rfl, by decide⟩

/-- C7 amended: with type `string`, a resolved empty-string value is not
dropped; it is passed through the injected quoting function and the
render yields `<column> <operator> <quote("")>` — never the empty
string result, which requires a type other than `string`. -/
theorem c7_string_empty_quoted (st : SQLTest) (md : Md)
    (hty : st.type = "string")
    (hres : resolveInput st md = Resolved.ok (Val.scal (Scal.str ""))) :
    render st md = Except.ok (st.column ++ " " ++ st.op ++ " " ++ md.sql_quote "") := by
  rw [render_scal_eq st md _ hres]
  have helem : processElem st md (Scal.str "") = Except.ok (some (md.sql_quote "")) := by
    unfold processElem
    rw [if_neg (fun hc => hc.2 hty), if_neg (by rw [hty]; decide),
      if_neg (by rw [hty]; decide)]
    rfl
  exact renderSeq_single_of_some st md _ _ helem

/-- Witness for the amended C7: `city`, type `string`, optional, value
`""`, quoting function wrapping in single quotes. -/
theorem c7_string_empty_quoted_witness :
    render c7st c7md = Except.ok (c7st.column ++ " " ++ c7st.op ++ " " ++ c7md.sql_quote "") :=
  c7_string_empty_quoted c7st c7md rfl rfl

/-- C8: for integer-typed input, a numeric value `n` renders with value
segment `str(int(n))`; a clean integer-literal string (one that parses
and equals its canonical form), optionally carrying a trailing `L`
marker that is stripped, renders with value segment `str(int(v))`; and
any non-empty string failing integer conversion fails with the
invalid-integer-value error naming the variable. -/
theorem c8_int_values (st : SQLTest) (md : Md) (hty : st.type = "int") :
    (∀ (n : Int), render st md = renderSeq st md [Scal.int n] →
      render st md = Except.ok (st.column ++ " " ++ st.op ++ " " ++ toString n))
    ∧ (∀ (z : Int) (s : String), pyInt? s = some z → s = toString z →
        s.data.getLast? ≠ some 'L' →
        render st md = renderSeq st md [Scal.str s] →
        render st md = Except.ok (st.column ++ " " ++ st.op ++ " " ++ toString z))
    ∧ (∀ (z : Int) (s : String), pyInt? s = some z → s = toString z →
        s.data.getLast? ≠ some 'L' →
        render st md = renderSeq st md [Scal.str (s ++ "L")] →
        render st md = Except.ok (st.column ++ " " ++ st.op ++ " " ++ toString z))
    ∧ (∀ s : String, s ≠ "" →
        pyInt? (String.mk (stripLMark s.data)) = none →
        render st md = renderSeq st md [Scal.str s] →
        render st md = Except.error (PyErr.valueError
          ("Invalid integer value for <em>" ++ pyFmtName st.name? ++ "</em>"))) := by
  refine ⟨fun n hr => ?_, fun z s hp hs hL hr => ?_, fun z s hp hs hL hr => ?_,
    fun s hne hnone hr => ?_⟩
  · rw [hr]
    exact renderSeq_single_of_some st md _ _ (processElem_int_intval st md hty n)
  · have hne := pyInt_ne_empty s z hp
    have hstrip : String.mk (stripLMark s.data) = s := by
      rw [stripLMark_id s.data hL, mk_data]
    have helem : processElem st md (Scal.str s) = Except.ok (some s) := by
      rw [processElem_int_str st md hty s hne, hstrip, hp]
    rw [hr, renderSeq_single_of_some st md _ s helem, hs]
  · have hne : s ++ "L" ≠ "" := by
      intro hc
      have hd := congrArg String.data hc
      rw [data_app] at hd
      simp at hd
    have hstrip : String.mk (stripLMark (s ++ "L").data) = s := by
      rw [data_app]
      show String.mk (stripLMark (s.data ++ ['L'])) = s
      rw [stripLMark_concat, mk_data]
    have helem : processElem st md (Scal.str (s ++ "L")) = Except.ok (some s) := by
      rw [processElem_int_str st md hty _ hne, hstrip, hp]
    rw [hr, renderSeq_single_of_some st md _ s helem, hs]
  · have helem : processElem st md (Scal.str s) = Except.error (PyErr.valueError
        ("Invalid integer value for <em>" ++ pyFmtName st.name? ++ "</em>")) := by
      rw [processElem_int_str st md hty s hne, hnone]
    rw [hr]
    exact renderSeq_single_of_error st md _ _ helem

/-- Witness for C8: `age`, type `int`, numeric value `30`. -/
theorem c8_int_values_witness : render c8st c8md = Except.ok "age = 30" := by
  rw [(c8_int_values c8st c8md rfl).1 30 rfl]
  rfl

/-- C9: for every configuration, resolving to the one-element list (or
tuple) `[x]` renders exactly as resolving to the bare scalar `x`
(contexts agreeing on the quoting function), including when `multiple`
is not set. -/
theorem c9_singleton_scalar_equiv (st : SQLTest) (md1 md2 : Md) (x : Scal)
    (h1 : resolveInput st md1 = Resolved.ok (Val.list [x])
      ∨ resolveInput st md1 = Resolved.ok (Val.tuple [x]))
    (h2 : resolveInput st md2 = Resolved.ok (Val.scal x))
    (hq : md1.sql_quote = md2.sql_quote) :
    render st md1 = render st md2 := by
  have hr2 : render st md2 = renderSeq st md2 [x] := render_scal_eq st md2 x h2
  have hlen : ¬(1 < List.length [x] ∧ argTruthy st.multiple? = false) :=
    fun hc => absurd hc.1 (by simp)
  rcases h1 with h1 | h1
  · rw [render_list_eq st md1 [x] h1, if_neg hlen, hr2]
    exact renderSeq_congr st md1 md2 [x] hq
  · rw [render_tuple_eq st md1 [x] h1, if_neg hlen, hr2]
    exact renderSeq_congr st md1 md2 [x] hq

/-- Witness for C9: `n = [7]` versus `n = 7` with `multiple` unset. -/
theorem c9_singleton_scalar_equiv_witness : render c9st c9md1 = render c9st c9md2 :=
  c9_singleton_scalar_equiv c9st c9md1 c9md2 (Scal.int 7) (Or.inl rfl) rfl rfl

/-- C10: the multiplicity check uses the raw length of the resolved
sequence before empty-value filtering: with `multiple` unset,
`x = ["", "1"]` fails with the multiple-values error, although with
`multiple` set the same input renders `"x = 1"` — only one element
survives the filter. -/
theorem c10_raw_length_check :
    render c10st c10md = Except.error (PyErr.valueError
      "multiple values are not allowed for <em>x</em>")
    ∧ render c10stM c10md = Except.ok "x = 1" :=
  ⟨rfl, rfl⟩
